import Mathlib

/-!
# Search Orchestration & Ranking Pipeline — shallow embedding

A shallow embedding of the maps-finder search pipeline:

* `utils/bayesian.js` — the ranking engine (`calculateScores`,
  `calculateBayesianScores`, `calculatePopularityScores`,
  `calculateScore`, `calculatePriorMean`);
* `utils/api.js` — the places gateway (`searchByCategory`, `searchByText`,
  `geocodeLocation`, `getAutocompleteSuggestions`, `haversineDistance`,
  `filterByDistance`, `circleToBounds`);
* `background.js` (service worker) — the orchestrator (`handleSearch`).

Modelling conventions: JavaScript numbers that only undergo field
arithmetic (ratings, review counts, parsed coordinates, Bayesian scores)
are `ℚ` or `ℕ`; quantities produced by transcendental functions
(`Math.log10`, the haversine distance, `Math.PI`-based offsets) are `ℝ`.
Network calls are modelled by passing the provider's response as an
explicit argument; `fetch` failures and float rounding are out of scope.
Fallible operations return `Except String`.
-/

namespace MapsFinder

/-! ## Configuration constants

`config/constants.js` is not among the staged sources; its values are
modelled from the spec. -/

/-- Modelled from the spec: `CONFIG.BAYESIAN.MIN_REVIEWS` from the missing
`config/constants.js`; the spec fixes the minimum review count at the
default 1 ("`userRatingCount` below a configured minimum (default 1)"). -/
def MIN_REVIEWS : ℕ := 1

/-- Modelled from the spec: `CONFIG.BAYESIAN.CONFIDENCE_THRESHOLD` from the
missing `config/constants.js`; the spec fixes the confidence threshold `C`
at the default 20. -/
def CONFIDENCE_THRESHOLD : ℚ := 20

/-- Modelled from the spec: `CONFIG.BAYESIAN.DEFAULT_PRIOR_MEAN` from the
missing `config/constants.js`; the spec gives the configured default prior
as 3.7. -/
def DEFAULT_PRIOR_MEAN : ℚ := 3.7

/-- Modelled from the spec: `CONFIG.TOP_RESULTS_TO_SHOW` from the missing
`config/constants.js`; the spec fixes the configured top-N at 3. -/
def TOP_RESULTS_TO_SHOW : ℕ := 3

/-! ## Data model -/

/-- A latitude/longitude pair (the provider's `location` objects and the
`{lat, lng}` pairs the pipeline passes around). -/
structure Coordinate where
  latitude : ℚ
  longitude : ℚ
  deriving DecidableEq

/-- A place as returned by the provider, restricted to the fields the
pipeline's field mask requests.  `displayName` stands for
`displayName?.text`; optional fields are absent when the provider omits
them.  `distanceMeters` is the field `filterByDistance` attaches. -/
structure Candidate where
  id : String
  displayName : Option String
  rating : Option ℚ
  userRatingCount : Option ℕ
  formattedAddress : Option String
  shortFormattedAddress : Option String
  location : Option Coordinate
  distanceMeters : Option ℝ := none

/-- A candidate together with the score the ranking engine wrote into its
`bayesianScore` field (both algorithms use that one field). -/
structure ScoredCandidate where
  place : Candidate
  bayesianScore : ℝ

/-! ## JavaScript `||` defaulting -/

/-- JS `x || d` for an optional number known to be a natural: `undefined`
and `0` are falsy. -/
def jsOrNat (x : Option ℕ) (d : ℕ) : ℕ :=
  match x with
  | none => d
  | some n => if n = 0 then d else n

/-- JS `x || d` for an optional rational number: `undefined` and `0` are
falsy. -/
def jsOrRat (x : Option ℚ) (d : ℚ) : ℚ :=
  match x with
  | none => d
  | some v => if v = 0 then d else v

/-- JS `x || d` for an optional string: `undefined` and `""` are falsy. -/
def jsOrStr (x : Option String) (d : String) : String :=
  match x with
  | none => d
  | some s => if s = "" then d else s

/-! ## The ranking engine (`utils/bayesian.js`) -/

/-- The pre-filter both scoring algorithms share:
`place.rating > 0 && (place.userRatingCount || 0) >= MIN_REVIEWS`
(an absent rating compares as false in JS). -/
def isValidPlace (place : Candidate) : Bool :=
  (match place.rating with
   | some r => decide (0 < r)
   | none => false) &&
  decide (MIN_REVIEWS ≤ jsOrNat place.userRatingCount 0)

/-- The `validPlaces` local of both scoring functions: the input filtered
by `isValidPlace`. -/
def validPlaces (places : List Candidate) : List Candidate :=
  places.filter isValidPlace

/-- `calculatePriorMean`: the review-count-weighted average rating of the
dataset, with `place.userRatingCount || 1` as each weight and the default
prior when the list or the total weight is degenerate. -/
def calculatePriorMean (places : List Candidate) : ℚ :=
  if places.length = 0 then DEFAULT_PRIOR_MEAN
  else
    let totalWeightedRating := places.foldl
      (fun acc place => acc + place.rating.getD 0 * (jsOrNat place.userRatingCount 1 : ℚ)) 0
    let totalReviews := places.foldl
      (fun acc place => acc + (jsOrNat place.userRatingCount 1 : ℚ)) 0
    if totalReviews = 0 then DEFAULT_PRIOR_MEAN
    else totalWeightedRating / totalReviews

/-- `calculateScore`: the Bayesian average `(C·m + R·v) / (C + v)`. -/
def calculateScore (rating : ℚ) (reviewCount : ℚ) (priorMean : ℚ)
    (confidenceThreshold : ℚ) : ℚ :=
  (confidenceThreshold * priorMean + rating * reviewCount) /
    (confidenceThreshold + reviewCount)

/-- The comparator `(a, b) => b.bayesianScore - a.bayesianScore` passed to
`Array.prototype.sort`: `a` sorts no later than `b` exactly when
`b.bayesianScore ≤ a.bayesianScore` (descending by score). -/
noncomputable def scoreDescending (a b : ScoredCandidate) : Bool :=
  decide (b.bayesianScore ≤ a.bayesianScore)

/-- The `scoredPlaces` local of `calculateBayesianScores`: each surviving
place paired with its Bayesian score
`calculateScore(place.rating, place.userRatingCount || 0, priorMean, CONFIDENCE_THRESHOLD)`,
where the prior mean is computed from the same surviving set. -/
def bayesianScoredPlaces (places : List Candidate) : List ScoredCandidate :=
  (validPlaces places).map fun place =>
    { place := place
      bayesianScore :=
        ((calculateScore (place.rating.getD 0) (jsOrNat place.userRatingCount 0 : ℚ)
          (calculatePriorMean (validPlaces places)) CONFIDENCE_THRESHOLD : ℚ) : ℝ) }

/-- `calculateBayesianScores`: filter, short-circuit on an empty survivor
set, score against the dataset prior, and stable-sort descending by score
(ES2019 `Array.prototype.sort` is stable). -/
noncomputable def calculateBayesianScores (places : List Candidate) : List ScoredCandidate :=
  if (validPlaces places).length = 0 then []
  else (bayesianScoredPlaces places).mergeSort scoreDescending

/-- The `POPULARITY_WEIGHT` local constant of `calculatePopularityScores`. -/
noncomputable def POPULARITY_WEIGHT : ℝ := 0.3

/-- The `scoredPlaces` local of `calculatePopularityScores`:
`reviews = place.userRatingCount || 1`, `reviewBonus = log10(reviews + 1)`,
`score = rating × (1 + reviewBonus × POPULARITY_WEIGHT)`. -/
noncomputable def popularityScoredPlaces (places : List Candidate) : List ScoredCandidate :=
  (validPlaces places).map fun place =>
    let reviews := jsOrNat place.userRatingCount 1
    let rating := place.rating.getD 0
    let reviewBonus := Real.logb 10 ((reviews : ℝ) + 1)
    let popularityScore := (rating : ℝ) * (1 + reviewBonus * POPULARITY_WEIGHT)
    { place := place, bayesianScore := popularityScore }

/-- `calculatePopularityScores`: same filter and stable descending sort as
the Bayesian variant, with the popularity-bonus score. -/
noncomputable def calculatePopularityScores (places : List Candidate) : List ScoredCandidate :=
  if (validPlaces places).length = 0 then []
  else (popularityScoredPlaces places).mergeSort scoreDescending

/-- `calculateScores`: dispatch on the algorithm name, defaulting to the
Bayesian algorithm for any string other than `'popularity'`. -/
noncomputable def calculateScores (places : List Candidate) (algorithm : String) :
    List ScoredCandidate :=
  if algorithm = "popularity" then calculatePopularityScores places
  else calculateBayesianScores places

/-! ## The places gateway (`utils/api.js`) -/

/-- `Math.atan2(y, x)` on real numbers (signed zeros and NaN are outside
the model). -/
noncomputable def jsAtan2 (y x : ℝ) : ℝ :=
  if 0 < x then Real.arctan (y / x)
  else if x < 0 then
    (if 0 ≤ y then Real.arctan (y / x) + Real.pi else Real.arctan (y / x) - Real.pi)
  else if 0 < y then Real.pi / 2
  else if y < 0 then -(Real.pi / 2)
  else 0

/-- The `toRad` local of `haversineDistance`: degrees to radians. -/
noncomputable def toRad (deg : ℝ) : ℝ := deg * Real.pi / 180

/-- `haversineDistance`: great-circle distance in meters between two
points, haversine formula with Earth radius 6,371,000 m. -/
noncomputable def haversineDistance (lat1 lng1 lat2 lng2 : ℝ) : ℝ :=
  let R : ℝ := 6371000
  let dLat := toRad (lat2 - lat1)
  let dLng := toRad (lng2 - lng1)
  let a := Real.sin (dLat / 2) ^ 2 +
    Real.cos (toRad lat1) * Real.cos (toRad lat2) * Real.sin (dLng / 2) ^ 2
  let c := 2 * jsAtan2 (Real.sqrt a) (Real.sqrt (1 - a))
  R * c

/-- The mutation `place.distanceMeters = distance` performed by
`filterByDistance` on a place it measured. -/
def setDistance (place : Candidate) (distance : ℝ) : Candidate :=
  { place with distanceMeters := some distance }

/-- A candidate with its `distanceMeters` field cleared; used to compare
`filterByDistance`'s output against its input modulo the attached field. -/
def clearDistance (place : Candidate) : Candidate :=
  { place with distanceMeters := none }

/-- `filterByDistance`: keep a candidate without a coordinate
unconditionally; otherwise measure the haversine distance from `center`,
attach it as `distanceMeters`, and keep the candidate iff the distance is
at most `radius`. -/
noncomputable def filterByDistance (places : List Candidate) (center : Coordinate)
    (radius : ℝ) : List Candidate :=
  places.filterMap fun place =>
    match place.location with
    | none => some place
    | some loc =>
      let distance := haversineDistance (center.latitude : ℝ) (center.longitude : ℝ)
        (loc.latitude : ℝ) (loc.longitude : ℝ)
      if distance ≤ radius then some (setDistance place distance) else none

/-- The rectangle `circleToBounds` produces. -/
structure Bounds where
  north : ℝ
  south : ℝ
  east : ℝ
  west : ℝ

/-- `circleToBounds`: the equirectangular bounding box of a circle, with
latitude span `radius / earthRadius` and longitude span
`radius / (earthRadius · cos lat)`, both converted to degrees. -/
noncomputable def circleToBounds (lat lng : ℝ) (radius : ℝ) : Bounds :=
  let earthRadius : ℝ := 6371000
  let latOffset := (radius / earthRadius) * (180 / Real.pi)
  let lngOffset := (radius / (earthRadius * Real.cos (lat * Real.pi / 180))) * (180 / Real.pi)
  { north := lat + latOffset
    south := lat - latOffset
    east := lng + lngOffset
    west := lng - lngOffset }

/-- A provider response to a Places search request: the HTTP success flag
(`response.ok`), the `error.error?.message` field the failure branch
reads, and the `data.places` field the success branch reads. -/
structure PlacesResponse where
  ok : Bool
  errorMessage : Option String
  places : Option (List Candidate)

/-- `searchByCategory` with the provider's response made explicit: on a
non-2xx response throw `error.error?.message || 'Places API error'`;
otherwise re-filter `data.places || []` by true distance.  (The request
itself — circle restricted to `min(radius, 50000)` with a fixed field
mask — does not affect the response handling modelled here.) -/
noncomputable def searchByCategory (location : Coordinate) (radius : ℝ)
    (response : PlacesResponse) : Except String (List Candidate) :=
  if response.ok = false then
    .error (jsOrStr response.errorMessage "Places API error")
  else
    .ok (filterByDistance (response.places.getD []) location radius)

/-- `searchByText` with the provider's response made explicit: identical
response handling to `searchByCategory` (the request differs — a
rectangle from `circleToBounds` — but the response path is the same). -/
noncomputable def searchByText (location : Coordinate) (radius : ℝ)
    (response : PlacesResponse) : Except String (List Candidate) :=
  if response.ok = false then
    .error (jsOrStr response.errorMessage "Places API error")
  else
    .ok (filterByDistance (response.places.getD []) location radius)

/-! ### The `geocodeLocation` coordinate fast path

`query.match(/^(-?\d+\.?\d*),\s*(-?\d+\.?\d*)$/)` followed by
`parseFloat` on the two groups, modelled as a recursive-descent parser
over the string's characters. -/

/-- JS `\s` on the characters the model covers (space, tab, newline,
carriage return, vertical tab, form feed). -/
def jsWhitespace (c : Char) : Bool :=
  c = ' ' || c = '\t' || c = '\n' || c = '\r' || c = '\x0b' || c = '\x0c'

/-- Split a leading run of decimal digits off a character list. -/
def takeDigits : List Char → List Char × List Char
  | [] => ([], [])
  | c :: cs =>
    if c.isDigit then
      let (ds, rest) := takeDigits cs
      (c :: ds, rest)
    else ([], c :: cs)

/-- The numeric value of a digit run. -/
def natOfDigits (ds : List Char) : ℕ :=
  ds.foldl (fun acc c => 10 * acc + (c.toNat - '0'.toNat)) 0

/-- Drop a leading run of `\s*` whitespace. -/
def dropJsWhitespace : List Char → List Char
  | [] => []
  | c :: cs => if jsWhitespace c then dropJsWhitespace cs else c :: cs

/-- One `-?\d+\.?\d*` group together with `parseFloat`'s value for it:
optional sign, at least one integer digit, an optional dot, then optional
fraction digits.  Returns the value and the unconsumed characters. -/
def parseSignedNum (cs : List Char) : Option (ℚ × List Char) :=
  let (neg, cs1) :=
    match cs with
    | '-' :: rest => (true, rest)
    | _ => (false, cs)
  match takeDigits cs1 with
  | ([], _) => none
  | (ds, rest) =>
    let (fracDigits, rest2) :=
      match rest with
      | '.' :: r => takeDigits r
      | _ => ([], rest)
    let value : ℚ := (natOfDigits ds : ℚ) +
      (natOfDigits fracDigits : ℚ) / (10 : ℚ) ^ fracDigits.length
    some (if neg then -value else value, rest2)

/-- The whole-string match of `/^(-?\d+\.?\d*),\s*(-?\d+\.?\d*)$/` with
the two groups run through `parseFloat`. -/
def parseCoordPair (s : String) : Option (ℚ × ℚ) :=
  match parseSignedNum s.data with
  | none => none
  | some (lat, rest) =>
    match rest with
    | ',' :: rest1 =>
      (match parseSignedNum (dropJsWhitespace rest1) with
       | none => none
       | some (lng, rest2) => if rest2 = [] then some (lat, lng) else none)
    | _ => none

/-- A Geocoding API response: the HTTP success flag (which
`geocodeLocation` never reads), `data.status`, and `data.results` with
each result projected to its `geometry.location`. -/
structure GeocodeResponse where
  ok : Bool
  status : String
  results : Option (List Coordinate)

/-- `geocodeLocation` with the provider's response made explicit.  The
second component records whether the network response was consulted:
a query that matches the literal `"lat,lng"` pattern is parsed directly
(`false`); otherwise the response is read (`true`), throwing the fixed
message when `data.status !== 'OK'` or `data.results` is missing or
empty, else returning the first result's location. -/
def geocodeLocation (query : String) (response : GeocodeResponse) :
    Except String Coordinate × Bool :=
  match parseCoordPair query with
  | some (lat, lng) => (.ok { latitude := lat, longitude := lng }, false)
  | none =>
    if response.status ≠ "OK" ∨ (response.results.getD []).isEmpty then
      (.error "Could not find location. Please try a different address.", true)
    else
      (.ok ((response.results.getD []).headD { latitude := 0, longitude := 0 }), true)

/-- One `placePrediction` of an autocomplete response, projected to the
fields the mapping reads: `placeId`, `structuredFormat?.mainText?.text`,
`structuredFormat?.secondaryText?.text`, and `text?.text`. -/
structure PlacePrediction where
  placeId : String
  structuredMainText : Option String
  structuredSecondaryText : Option String
  text : Option String

/-- One element of `data.suggestions`, whose `placePrediction` may be
absent. -/
structure AutocompleteItem where
  placePrediction : Option PlacePrediction

/-- An autocomplete response: the HTTP success flag and
`data.suggestions`. -/
structure AutocompleteResponse where
  ok : Bool
  suggestions : Option (List AutocompleteItem)

/-- One mapped suggestion as `getAutocompleteSuggestions` returns it. -/
structure Suggestion where
  placeId : String
  mainText : String
  secondaryText : String
  fullText : String

/-- `getAutocompleteSuggestions` with the provider's response made
explicit.  Inputs shorter than 2 characters, a non-2xx response (logged,
not thrown), and a missing or empty `data.suggestions` all yield `[]`;
otherwise the items with a `placePrediction` are kept, truncated to 5,
and mapped to `Suggestion`s with JS `||` fallbacks. -/
def getAutocompleteSuggestions (input : String) (response : AutocompleteResponse) :
    List Suggestion :=
  if input.length < 2 then []
  else if response.ok = false then []
  else
    let suggestions := response.suggestions.getD []
    if suggestions.isEmpty then []
    else
      ((suggestions.filter fun s => s.placePrediction.isSome).take 5).map fun s =>
        let p := s.placePrediction.getD ⟨"", none, none, none⟩
        { placeId := p.placeId
          mainText := jsOrStr p.structuredMainText
            (jsOrStr (p.text.map fun t => (t.splitOn ",").headD "") "")
          secondaryText := jsOrStr p.structuredSecondaryText ""
          fullText := jsOrStr p.text "" }

/-! ## The search orchestrator (`background.js`, `handleSearch`) -/

/-- The `location` parameter of a search request: either `{lat, lng}`
coordinates or `{query: string}` still to be geocoded. -/
inductive LocationParam where
  | coords (c : Coordinate)
  | query (q : String)

/-- The payload of a `SEARCH` message (`algorithm` defaults to
`'bayesian'` at the destructuring; the model takes it explicitly). -/
structure SearchPayload where
  searchQuery : String
  searchMode : String
  location : LocationParam
  radius : ℝ
  algorithm : String

/-- One entry of the ranked result `handleSearch` answers with.
`distanceKm` models `(distanceMeters / 1000).toFixed(1)`, `none` standing
for JS `null`. -/
structure ResultEntry where
  placeId : String
  name : String
  rating : ℚ
  reviewCount : ℕ
  bayesianScore : ℝ
  address : String
  distanceKm : Option ℚ

/-- JS `Number.prototype.toFixed(1)` as a rounding to one decimal place:
the nearest multiple of 1/10, ties toward the larger value. -/
noncomputable def toFixed1 (x : ℝ) : ℚ := (⌊x * 10 + 1 / 2⌋ : ℚ) / 10

/-- The result mapping at the end of `handleSearch`: project a scored
place to the answer entry, with JS `||` fallbacks for name, rating,
review count and address, and `distanceKm` present exactly when
`place.distanceMeters` is truthy (present and nonzero). -/
noncomputable def toResultEntry (place : ScoredCandidate) : ResultEntry :=
  { placeId := place.place.id
    name := jsOrStr place.place.displayName "Unknown"
    rating := jsOrRat place.place.rating 0
    reviewCount := jsOrNat place.place.userRatingCount 0
    bayesianScore := place.bayesianScore
    address := jsOrStr place.place.formattedAddress
      (jsOrStr place.place.shortFormattedAddress "")
    distanceKm :=
      match place.place.distanceMeters with
      | none => none
      | some d => if d = 0 then none else some (toFixed1 (d / 1000)) }

/-- `handleSearch` with the stored API key and both provider responses
made explicit: fail without an API key; resolve `location.query` through
`geocodeLocation` (propagating its failure); dispatch on `searchMode`;
answer `[]` when no candidate survives the gateway; otherwise score with
the requested algorithm, truncate to the configured top-N and map to
result entries. -/
noncomputable def handleSearch (apiKey : Option String) (payload : SearchPayload)
    (geocodeResponse : GeocodeResponse) (searchResponse : PlacesResponse) :
    Except String (List ResultEntry) :=
  match apiKey with
  | none => .error "API key not configured. Please add your Google API key in settings."
  | some _ =>
    let coordinatesResult : Except String Coordinate :=
      match payload.location with
      | .query q => (geocodeLocation q geocodeResponse).1
      | .coords c => .ok c
    match coordinatesResult with
    | .error e => .error e
    | .ok coordinates =>
      let placesResult :=
        if payload.searchMode = "category" then
          searchByCategory coordinates payload.radius searchResponse
        else
          searchByText coordinates payload.radius searchResponse
      match placesResult with
      | .error e => .error e
      | .ok places =>
        if places.isEmpty then .ok []
        else
          let scoredPlaces := calculateScores places payload.algorithm
          .ok ((scoredPlaces.take TOP_RESULTS_TO_SHOW).map toResultEntry)

/-! ## The data-model invariant -/

/-- The spec's `Coordinate` invariant: latitude in `[-90, 90]`, longitude
in `[-180, 180]`. -/
def coordinateInvariant (c : Coordinate) : Prop :=
  -90 ≤ c.latitude ∧ c.latitude ≤ 90 ∧ -180 ≤ c.longitude ∧ c.longitude ≤ 180

/-! ## Concrete sample data for evaluating the model -/

/-- The origin, used as a sample search center. -/
def sampleOrigin : Coordinate := { latitude := 0, longitude := 0 }

/-- A sample candidate located exactly at the origin, rated 4 with 10
reviews. -/
def samplePlace : Candidate :=
  { id := "p1"
    displayName := some "Cafe One"
    rating := some 4
    userRatingCount := some 10
    formattedAddress := some "1 Origin St"
    shortFormattedAddress := none
    location := some { latitude := 0, longitude := 0 }
    distanceMeters := none }

/-- A sample candidate without a coordinate, rated 3 with 1 review. -/
def samplePlaceNoLocation : Candidate :=
  { id := "p2"
    displayName := none
    rating := some 3
    userRatingCount := some 1
    formattedAddress := none
    shortFormattedAddress := none
    location := none
    distanceMeters := none }

/-- A sample candidate without a rating (dropped by the scoring
pre-filter). -/
def sampleUnrated : Candidate :=
  { id := "p3"
    displayName := some "Unrated"
    rating := none
    userRatingCount := some 7
    formattedAddress := none
    shortFormattedAddress := none
    location := none
    distanceMeters := none }

/-! ## Theorems -/

/-- C8: for every input string that matches a literal `"lat,lng"` numeric
pair, `geocodeLocation` returns the parsed coordinate pair directly, and
the network response is not consulted (the flag is `false` for every
response value). -/
theorem geocode_fast_path (query : String) (lat lng : ℚ) (response : GeocodeResponse)
    (h : parseCoordPair query = some (lat, lng)) :
    geocodeLocation query response =
      (.ok { latitude := lat, longitude := lng }, false) := by
  simp [geocodeLocation, h]

/-- Witness for C8: `"40.7128,-74.0060"` parses on the fast path and
geocodes without touching the (here degenerate) network response. -/
theorem geocode_fast_path_witness :
    geocodeLocation "40.7128,-74.0060" { ok := false, status := "", results := none } =
      (.ok { latitude := 407128 / 10000, longitude := -(740060 / 10000) }, false) :=
  geocode_fast_path _ _ _ _ (by
    simp [parseCoordPair, parseSignedNum, takeDigits, natOfDigits, dropJsWhitespace,
      jsWhitespace]
    norm_num)

/-- Counterexample for C10: the fast path parses `"200,300"` — a pair far
outside the coordinate ranges — and returns it as a `Coordinate` without
any validation, so not every coordinate `geocodeLocation` produces
satisfies the invariant. -/
theorem coordinate_invariant_counterexample :
    geocodeLocation "200,300" { ok := true, status := "OK", results := none } =
      (.ok { latitude := 200, longitude := 300 }, false)
    ∧ ¬ coordinateInvariant { latitude := 200, longitude := 300 } := by
  constructor
  · simp [geocodeLocation, parseCoordPair, parseSignedNum, takeDigits, natOfDigits,
      dropJsWhitespace, jsWhitespace]
  · simp [coordinateInvariant]
    norm_num

/-- C10 (amended): a fast-path geocode result is the parsed pair
unvalidated; it satisfies the `Coordinate` invariant exactly when the
parsed latitude lies in `[-90, 90]` and the parsed longitude in
`[-180, 180]`. -/
theorem coordinate_invariant_fast_path (query : String) (lat lng : ℚ)
    (response : GeocodeResponse) (h : parseCoordPair query = some (lat, lng)) :
    (geocodeLocation query response).1 = .ok { latitude := lat, longitude := lng }
    ∧ (coordinateInvariant { latitude := lat, longitude := lng } ↔
        (-90 ≤ lat ∧ lat ≤ 90 ∧ -180 ≤ lng ∧ lng ≤ 180)) := by
  constructor
  · simp [geocodeLocation, h]
  · exact Iff.rfl

/-- Witness for C10 (amended): at the in-range input `"10.5,-20.25"` the
fast path returns the parsed pair, which does satisfy the invariant. -/
theorem coordinate_invariant_fast_path_witness :
    (geocodeLocation "10.5,-20.25" { ok := true, status := "OK", results := none }).1 =
      .ok { latitude := 105 / 10, longitude := -(2025 / 100) }
    ∧ (coordinateInvariant { latitude := 105 / 10, longitude := -(2025 / 100) } ↔
        (-90 ≤ (105 / 10 : ℚ) ∧ (105 / 10 : ℚ) ≤ 90 ∧
         -180 ≤ -(2025 / 100 : ℚ) ∧ -(2025 / 100 : ℚ) ≤ 180)) :=
  coordinate_invariant_fast_path _ _ _ _ (by
    simp [parseCoordPair, parseSignedNum, takeDigits, natOfDigits, dropJsWhitespace,
      jsWhitespace]
    norm_num)

/-- C9: for a center with latitude in `[-90, 90]` and a positive radius,
the rectangle `circleToBounds` produces contains the center. -/
theorem circleToBounds_contains_center (lat lng radius : ℝ)
    (hlat1 : -90 ≤ lat) (hlat2 : lat ≤ 90) (hr : 0 < radius) :
    (circleToBounds lat lng radius).south ≤ lat
    ∧ lat ≤ (circleToBounds lat lng radius).north
    ∧ (circleToBounds lat lng radius).west ≤ lng
    ∧ lng ≤ (circleToBounds lat lng radius).east := by
  have hpi : (0 : ℝ) < Real.pi := Real.pi_pos
  have hcos : 0 ≤ Real.cos (lat * Real.pi / 180) := by
    apply Real.cos_nonneg_of_mem_Icc
    constructor
    · have : -90 * (Real.pi / 180) ≤ lat * (Real.pi / 180) := by
        apply mul_le_mul_of_nonneg_right hlat1
        positivity
      calc -(Real.pi / 2) = -90 * (Real.pi / 180) := by ring
        _ ≤ lat * (Real.pi / 180) := this
        _ = lat * Real.pi / 180 := by ring
    · have : lat * (Real.pi / 180) ≤ 90 * (Real.pi / 180) := by
        apply mul_le_mul_of_nonneg_right hlat2
        positivity
      calc lat * Real.pi / 180 = lat * (Real.pi / 180) := by ring
        _ ≤ 90 * (Real.pi / 180) := this
        _ = Real.pi / 2 := by ring
  have hlatOff : 0 ≤ (radius / 6371000) * (180 / Real.pi) := by positivity
  have hlngOff : 0 ≤ (radius / (6371000 * Real.cos (lat * Real.pi / 180))) * (180 / Real.pi) := by
    apply mul_nonneg
    · exact div_nonneg hr.le (by positivity)
    · positivity
  simp only [circleToBounds]
  refine ⟨by linarith, by linarith, by linarith, by linarith⟩

/-- Witness for C9: at latitude 0, longitude 0 and radius 1000 m the
bounds contain the center. -/
theorem circleToBounds_contains_center_witness :
    (circleToBounds 0 0 1000).south ≤ 0
    ∧ (0 : ℝ) ≤ (circleToBounds 0 0 1000).north
    ∧ (circleToBounds 0 0 1000).west ≤ 0
    ∧ (0 : ℝ) ≤ (circleToBounds 0 0 1000).east :=
  circleToBounds_contains_center 0 0 1000 (by norm_num) (by norm_num) (by norm_num)

/-! ### The ranking engine: permutation, sortedness, stability -/

/-- The sort comparator is transitive. -/
theorem scoreDescending_trans (a b c : ScoredCandidate)
    (h1 : scoreDescending a b = true) (h2 : scoreDescending b c = true) :
    scoreDescending a c = true := by
  simp only [scoreDescending, decide_eq_true_eq] at h1 h2 ⊢
  exact le_trans h2 h1

/-- The sort comparator is total. -/
theorem scoreDescending_total (a b : ScoredCandidate) :
    (scoreDescending a b || scoreDescending b a) = true := by
  simp only [scoreDescending, Bool.or_eq_true, decide_eq_true_eq]
  exact le_total b.bayesianScore a.bayesianScore

/-- The empty-survivors short-circuit of `calculateBayesianScores` agrees
with sorting the (then empty) scored list, so the function is the stable
sort of its scored survivors in every case. -/
theorem calculateBayesianScores_eq_mergeSort (places : List Candidate) :
    calculateBayesianScores places =
      (bayesianScoredPlaces places).mergeSort scoreDescending := by
  unfold calculateBayesianScores
  split
  · rename_i h
    rw [List.length_eq_zero] at h
    simp [bayesianScoredPlaces, h]
  · rfl

/-- Same as `calculateBayesianScores_eq_mergeSort` for the popularity
variant. -/
theorem calculatePopularityScores_eq_mergeSort (places : List Candidate) :
    calculatePopularityScores places =
      (popularityScoredPlaces places).mergeSort scoreDescending := by
  unfold calculatePopularityScores
  split
  · rename_i h
    rw [List.length_eq_zero] at h
    simp [popularityScoredPlaces, h]
  · rfl

/-- What the stable sort guarantees for any scored list: the underlying
places are permuted, scores are pairwise descending, and a
score-tied pair keeps its input order. -/
theorem mergeSort_scored_spec (l : List ScoredCandidate) :
    ((l.mergeSort scoreDescending).map ScoredCandidate.place).Perm
      (l.map ScoredCandidate.place)
    ∧ (l.mergeSort scoreDescending).Pairwise
        (fun a b => b.bayesianScore ≤ a.bayesianScore)
    ∧ ∀ a b : ScoredCandidate, a.bayesianScore = b.bayesianScore →
        [a, b].Sublist l → [a, b].Sublist (l.mergeSort scoreDescending) := by
  refine ⟨(List.mergeSort_perm l scoreDescending).map _, ?_, ?_⟩
  · have h := @List.sorted_mergeSort ScoredCandidate scoreDescending
      (fun a b c => scoreDescending_trans a b c) (fun a b => scoreDescending_total a b) l
    exact h.imp (by simp only [scoreDescending, decide_eq_true_eq]; exact fun h => h)
  · intro a b hab hsub
    exact List.pair_sublist_mergeSort (fun a b c => scoreDescending_trans a b c)
      (fun a b => scoreDescending_total a b)
      (by simp [scoreDescending, hab]) hsub

/-- Scoring attaches a score and keeps the place: projecting the Bayesian
scored list back to places gives exactly the filtered survivors. -/
theorem bayesianScoredPlaces_map_place (places : List Candidate) :
    (bayesianScoredPlaces places).map ScoredCandidate.place = validPlaces places := by
  simp only [bayesianScoredPlaces, List.map_map, Function.comp_def]
  exact List.map_id _

/-- Same as `bayesianScoredPlaces_map_place` for the popularity variant. -/
theorem popularityScoredPlaces_map_place (places : List Candidate) :
    (popularityScoredPlaces places).map ScoredCandidate.place = validPlaces places := by
  simp only [popularityScoredPlaces, List.map_map, Function.comp_def]
  exact List.map_id _

/-- C1: for every candidate list and either algorithm, the ranking
engine's output is a permutation of the input restricted to the
candidates passing the validity pre-filter (rating present and positive,
review count at least the configured minimum) — no additions,
duplications or other removals — sorted descending by score, with
score-tied pairs keeping their input order (stable sort). -/
theorem ranking_output_perm_sorted_stable (places : List Candidate) :
    (((calculateBayesianScores places).map ScoredCandidate.place).Perm (validPlaces places)
      ∧ (calculateBayesianScores places).Pairwise
          (fun a b => b.bayesianScore ≤ a.bayesianScore)
      ∧ ∀ a b : ScoredCandidate, a.bayesianScore = b.bayesianScore →
          [a, b].Sublist (bayesianScoredPlaces places) →
          [a, b].Sublist (calculateBayesianScores places))
    ∧ (((calculatePopularityScores places).map ScoredCandidate.place).Perm (validPlaces places)
      ∧ (calculatePopularityScores places).Pairwise
          (fun a b => b.bayesianScore ≤ a.bayesianScore)
      ∧ ∀ a b : ScoredCandidate, a.bayesianScore = b.bayesianScore →
          [a, b].Sublist (popularityScoredPlaces places) →
          [a, b].Sublist (calculatePopularityScores places)) := by
  rw [calculateBayesianScores_eq_mergeSort, calculatePopularityScores_eq_mergeSort]
  obtain ⟨hp1, hs1, hst1⟩ := mergeSort_scored_spec (bayesianScoredPlaces places)
  obtain ⟨hp2, hs2, hst2⟩ := mergeSort_scored_spec (popularityScoredPlaces places)
  rw [bayesianScoredPlaces_map_place] at hp1
  rw [popularityScoredPlaces_map_place] at hp2
  exact ⟨⟨hp1, hs1, hst1⟩, ⟨hp2, hs2, hst2⟩⟩

/-- C2: with the prior mean computed from the surviving candidate set,
the Bayesian score is monotonically non-decreasing in the rating holding
the review count fixed, and non-decreasing in the review count holding
the rating fixed whenever the rating exceeds the prior mean. -/
theorem bayesian_score_monotone (places : List Candidate) (R R' : ℚ) (v v' : ℕ) :
    (R ≤ R' →
      calculateScore R (v : ℚ) (calculatePriorMean (validPlaces places))
          CONFIDENCE_THRESHOLD ≤
        calculateScore R' (v : ℚ) (calculatePriorMean (validPlaces places))
          CONFIDENCE_THRESHOLD)
    ∧ (calculatePriorMean (validPlaces places) < R → v ≤ v' →
      calculateScore R (v : ℚ) (calculatePriorMean (validPlaces places))
          CONFIDENCE_THRESHOLD ≤
        calculateScore R (v' : ℚ) (calculatePriorMean (validPlaces places))
          CONFIDENCE_THRESHOLD) := by
  set m := calculatePriorMean (validPlaces places) with hm
  constructor
  · intro hRR
    simp only [calculateScore, CONFIDENCE_THRESHOLD]
    rw [div_le_div_iff_of_pos_right (by positivity)]
    have h := mul_le_mul_of_nonneg_right hRR (by positivity : (0 : ℚ) ≤ (v : ℚ))
    linarith
  · intro hmR hvv
    have hvv' : (v : ℚ) ≤ (v' : ℚ) := by exact_mod_cast hvv
    have hv0 : (0 : ℚ) ≤ (v : ℚ) := Nat.cast_nonneg v
    simp only [calculateScore, CONFIDENCE_THRESHOLD]
    rw [div_le_div_iff₀ (by positivity) (by positivity)]
    nlinarith [mul_nonneg (sub_nonneg.2 hmR.le) (sub_nonneg.2 hvv')]

/-- Witness for C2: on a one-candidate survivor set (rating 3, one
review) the prior mean is 3, and the monotonicity theorem applies at
rating 4 vs 9/2 with 2 reviews, and at 2 vs 30 reviews with rating 4. -/
theorem bayesian_score_monotone_witness :
    (calculateScore 4 ((2 : ℕ) : ℚ)
        (calculatePriorMean (validPlaces [samplePlaceNoLocation])) CONFIDENCE_THRESHOLD ≤
      calculateScore (9 / 2) ((2 : ℕ) : ℚ)
        (calculatePriorMean (validPlaces [samplePlaceNoLocation])) CONFIDENCE_THRESHOLD)
    ∧ (calculateScore 4 ((2 : ℕ) : ℚ)
        (calculatePriorMean (validPlaces [samplePlaceNoLocation])) CONFIDENCE_THRESHOLD ≤
      calculateScore 4 ((30 : ℕ) : ℚ)
        (calculatePriorMean (validPlaces [samplePlaceNoLocation])) CONFIDENCE_THRESHOLD) := by
  have h := bayesian_score_monotone [samplePlaceNoLocation] 4 (9 / 2) 2 30
  have hm : calculatePriorMean (validPlaces [samplePlaceNoLocation]) < 4 := by
    simp [calculatePriorMean, validPlaces, isValidPlace, jsOrNat, samplePlaceNoLocation,
      List.filter, MIN_REVIEWS]
    norm_num
  exact ⟨h.1 (by norm_num), h.2 hm (by norm_num)⟩

/-- C4: every entry of the popularity-scored output carries the score
`rating × (1 + log10(reviewCount + 1) × 0.3)` computed from its own
rating and review count (exactly, hence within any floating tolerance). -/
theorem popularity_score_formula (places : List Candidate) (e : ScoredCandidate)
    (he : e ∈ calculatePopularityScores places) :
    e.bayesianScore = ((e.place.rating.getD 0 : ℚ) : ℝ) *
      (1 + Real.logb 10 (((e.place.userRatingCount.getD 0 : ℕ) : ℝ) + 1) * 0.3) := by
  rw [calculatePopularityScores_eq_mergeSort] at he
  have he' : e ∈ popularityScoredPlaces places :=
    (List.mergeSort_perm _ scoreDescending).mem_iff.1 he
  rw [popularityScoredPlaces] at he'
  obtain ⟨p, hp, rfl⟩ := List.mem_map.1 he'
  have hv : isValidPlace p = true := (List.mem_filter.1 hp).2
  rw [isValidPlace, Bool.and_eq_true, decide_eq_true_eq] at hv
  obtain ⟨-, hcount⟩ := hv
  match hc : p.userRatingCount with
  | none =>
    rw [hc] at hcount
    simp [jsOrNat, MIN_REVIEWS] at hcount
  | some n =>
    rw [hc] at hcount
    by_cases hn : n = 0
    · subst hn
      simp [jsOrNat, MIN_REVIEWS] at hcount
    · simp [jsOrNat, hc, hn, POPULARITY_WEIGHT]

/-- Witness for C4: the score of the single surviving sample place
(rating 4, 10 reviews) is exactly `4 × (1 + log10(11) × 0.3)`. -/
theorem popularity_score_formula_witness :
    (⟨samplePlace, ((4 : ℚ) : ℝ) *
        (1 + Real.logb 10 (((10 : ℕ) : ℝ) + 1) * POPULARITY_WEIGHT)⟩ :
      ScoredCandidate).bayesianScore =
    ((samplePlace.rating.getD 0 : ℚ) : ℝ) *
      (1 + Real.logb 10 (((samplePlace.userRatingCount.getD 0 : ℕ) : ℝ) + 1) * 0.3) := by
  apply popularity_score_formula [samplePlace]
  simp [calculatePopularityScores, validPlaces, isValidPlace, jsOrNat, samplePlace,
    popularityScoredPlaces, List.mergeSort_singleton, MIN_REVIEWS]

/-! ### The distance filter -/

/-- Clearing the attached distance undoes setting it. -/
theorem clearDistance_setDistance (p : Candidate) (d : ℝ) :
    clearDistance (setDistance p d) = clearDistance p := rfl

/-- Unfolding `filterByDistance` one candidate at a time. -/
theorem filterByDistance_cons (p : Candidate) (ps : List Candidate) (center : Coordinate)
    (radius : ℝ) :
    filterByDistance (p :: ps) center radius =
      (match p.location with
       | none => p :: filterByDistance ps center radius
       | some loc =>
         if haversineDistance (center.latitude : ℝ) (center.longitude : ℝ)
             (loc.latitude : ℝ) (loc.longitude : ℝ) ≤ radius then
           setDistance p (haversineDistance (center.latitude : ℝ) (center.longitude : ℝ)
             (loc.latitude : ℝ) (loc.longitude : ℝ)) :: filterByDistance ps center radius
         else filterByDistance ps center radius) := by
  simp only [filterByDistance, List.filterMap_cons]
  cases p.location with
  | none => rfl
  | some loc =>
    dsimp only
    by_cases hd : haversineDistance (center.latitude : ℝ) (center.longitude : ℝ)
        (loc.latitude : ℝ) (loc.longitude : ℝ) ≤ radius
    · simp [hd]
    · simp [hd]

/-- Order preservation: modulo the attached `distanceMeters` field, the
filter's output is a sublist of its input. -/
theorem filterByDistance_sublist (places : List Candidate) (center : Coordinate)
    (radius : ℝ) :
    ((filterByDistance places center radius).map clearDistance).Sublist
      (places.map clearDistance) := by
  induction places with
  | nil => simp [filterByDistance]
  | cons p ps ih =>
    rw [filterByDistance_cons]
    cases p.location with
    | none => simpa using ih.cons₂ (clearDistance p)
    | some loc =>
      dsimp only
      split
      · simpa [clearDistance_setDistance] using ih.cons₂ (clearDistance p)
      · exact ih.trans (List.sublist_cons_self _ _)

/-- A candidate without a coordinate is retained unconditionally and
unchanged. -/
theorem filterByDistance_mem_noLocation (places : List Candidate) (center : Coordinate)
    (radius : ℝ) (p : Candidate) (hp : p ∈ places) (hloc : p.location = none) :
    p ∈ filterByDistance places center radius := by
  induction places with
  | nil => cases hp
  | cons q qs ih =>
    rw [filterByDistance_cons]
    rcases List.mem_cons.1 hp with rfl | hmem
    · rw [hloc]
      exact List.mem_cons_self _ _
    · cases hq : q.location with
      | none => exact List.mem_cons_of_mem _ (ih hmem)
      | some loc =>
        dsimp only
        split
        · exact List.mem_cons_of_mem _ (ih hmem)
        · exact ih hmem

/-- A located candidate within the radius is retained with its distance
attached. -/
theorem filterByDistance_mem_inRadius (places : List Candidate) (center : Coordinate)
    (radius : ℝ) (p : Candidate) (loc : Coordinate) (hp : p ∈ places)
    (hloc : p.location = some loc)
    (hd : haversineDistance (center.latitude : ℝ) (center.longitude : ℝ)
      (loc.latitude : ℝ) (loc.longitude : ℝ) ≤ radius) :
    setDistance p (haversineDistance (center.latitude : ℝ) (center.longitude : ℝ)
      (loc.latitude : ℝ) (loc.longitude : ℝ)) ∈ filterByDistance places center radius := by
  induction places with
  | nil => cases hp
  | cons q qs ih =>
    rw [filterByDistance_cons]
    rcases List.mem_cons.1 hp with rfl | hmem
    · rw [hloc]
      dsimp only
      rw [if_pos hd]
      exact List.mem_cons_self _ _
    · cases hq : q.location with
      | none => exact List.mem_cons_of_mem _ (ih hmem)
      | some loc' =>
        dsimp only
        split
        · exact List.mem_cons_of_mem _ (ih hmem)
        · exact ih hmem

/-- Everything the filter retains is either an unlocated input candidate
kept as-is, or a located input candidate within the radius with its
distance attached. -/
theorem filterByDistance_mem_sound (places : List Candidate) (center : Coordinate)
    (radius : ℝ) (q : Candidate) (hq : q ∈ filterByDistance places center radius) :
    (q.location = none ∧ q ∈ places) ∨
    (∃ p, p ∈ places ∧ ∃ loc, p.location = some loc ∧
      haversineDistance (center.latitude : ℝ) (center.longitude : ℝ)
        (loc.latitude : ℝ) (loc.longitude : ℝ) ≤ radius ∧
      q = setDistance p (haversineDistance (center.latitude : ℝ) (center.longitude : ℝ)
        (loc.latitude : ℝ) (loc.longitude : ℝ))) := by
  induction places with
  | nil => simp [filterByDistance] at hq
  | cons p ps ih =>
    rw [filterByDistance_cons] at hq
    cases hloc : p.location with
    | none =>
      rw [hloc] at hq
      rcases List.mem_cons.1 hq with rfl | hmem
      · exact Or.inl ⟨hloc, List.mem_cons_self _ _⟩
      · rcases ih hmem with ⟨h1, h2⟩ | ⟨r, hr, loc, h1, h2, h3⟩
        · exact Or.inl ⟨h1, List.mem_cons_of_mem _ h2⟩
        · exact Or.inr ⟨r, List.mem_cons_of_mem _ hr, loc, h1, h2, h3⟩
    | some loc =>
      rw [hloc] at hq
      dsimp only at hq
      by_cases hd : haversineDistance (center.latitude : ℝ) (center.longitude : ℝ)
          (loc.latitude : ℝ) (loc.longitude : ℝ) ≤ radius
      · rw [if_pos hd] at hq
        rcases List.mem_cons.1 hq with rfl | hmem
        · exact Or.inr ⟨p, List.mem_cons_self _ _, loc, hloc, hd, rfl⟩
        · rcases ih hmem with ⟨h1, h2⟩ | ⟨r, hr, loc', h1, h2, h3⟩
          · exact Or.inl ⟨h1, List.mem_cons_of_mem _ h2⟩
          · exact Or.inr ⟨r, List.mem_cons_of_mem _ hr, loc', h1, h2, h3⟩
      · rw [if_neg hd] at hq
        rcases ih hq with ⟨h1, h2⟩ | ⟨r, hr, loc', h1, h2, h3⟩
        · exact Or.inl ⟨h1, List.mem_cons_of_mem _ h2⟩
        · exact Or.inr ⟨r, List.mem_cons_of_mem _ hr, loc', h1, h2, h3⟩

/-- C3: the distance filter preserves input order (modulo the attached
`distanceMeters`), retains unlocated candidates unconditionally, retains
a located candidate exactly when its haversine distance from the center
is at most the radius (in particular at distance exactly equal to the
radius), attaching that distance, and retains nothing else. -/
theorem filterByDistance_spec (places : List Candidate) (center : Coordinate) (radius : ℝ) :
    ((filterByDistance places center radius).map clearDistance).Sublist
      (places.map clearDistance)
    ∧ (∀ p ∈ places, p.location = none → p ∈ filterByDistance places center radius)
    ∧ (∀ p ∈ places, ∀ loc, p.location = some loc →
        haversineDistance (center.latitude : ℝ) (center.longitude : ℝ)
          (loc.latitude : ℝ) (loc.longitude : ℝ) ≤ radius →
        setDistance p (haversineDistance (center.latitude : ℝ) (center.longitude : ℝ)
          (loc.latitude : ℝ) (loc.longitude : ℝ)) ∈ filterByDistance places center radius)
    ∧ (∀ p ∈ places, ∀ loc, p.location = some loc →
        haversineDistance (center.latitude : ℝ) (center.longitude : ℝ)
          (loc.latitude : ℝ) (loc.longitude : ℝ) = radius →
        setDistance p (haversineDistance (center.latitude : ℝ) (center.longitude : ℝ)
          (loc.latitude : ℝ) (loc.longitude : ℝ)) ∈ filterByDistance places center radius)
    ∧ (∀ q ∈ filterByDistance places center radius,
        (q.location = none ∧ q ∈ places) ∨
        (∃ p, p ∈ places ∧ ∃ loc, p.location = some loc ∧
          haversineDistance (center.latitude : ℝ) (center.longitude : ℝ)
            (loc.latitude : ℝ) (loc.longitude : ℝ) ≤ radius ∧
          q = setDistance p (haversineDistance (center.latitude : ℝ) (center.longitude : ℝ)
            (loc.latitude : ℝ) (loc.longitude : ℝ)))) :=
  ⟨filterByDistance_sublist places center radius,
   fun p hp h => filterByDistance_mem_noLocation places center radius p hp h,
   fun p hp loc hl hd => filterByDistance_mem_inRadius places center radius p loc hp hl hd,
   fun p hp loc hl hd =>
     filterByDistance_mem_inRadius places center radius p loc hp hl (le_of_eq hd),
   fun q hq => filterByDistance_mem_sound places center radius q hq⟩

/-- The haversine distance from a point to itself is zero. -/
theorem haversineDistance_self (lat lng : ℝ) : haversineDistance lat lng lat lng = 0 := by
  simp [haversineDistance, toRad, jsAtan2, Real.sqrt_one, Real.arctan_zero]

/-! ### The gateway's error behavior -/

/-- C5 (amended): on a non-2xx response the two search operations fail
with the provider's own message when present (and non-empty), else the
generic `'Places API error'`; `geocodeLocation` never reads the HTTP
status — off the fast path it fails with its own fixed message exactly
when `data.status` is not `'OK'` or the results are missing or empty,
and succeeds otherwise even on a non-2xx response; and
`getAutocompleteSuggestions` answers `[]` on a non-2xx response instead
of failing. -/
theorem provider_error_behavior (center : Coordinate) (radius : ℝ) (presp : PlacesResponse)
    (gq : String) (gresp : GeocodeResponse) (input : String)
    (aresp : AutocompleteResponse) :
    (presp.ok = false →
      searchByCategory center radius presp =
        .error (jsOrStr presp.errorMessage "Places API error")
      ∧ searchByText center radius presp =
        .error (jsOrStr presp.errorMessage "Places API error"))
    ∧ (parseCoordPair gq = none →
        (gresp.status ≠ "OK" ∨ (gresp.results.getD []).isEmpty = true →
          (geocodeLocation gq gresp).1 =
            .error "Could not find location. Please try a different address.")
        ∧ (gresp.status = "OK" → (gresp.results.getD []).isEmpty = false →
          (geocodeLocation gq gresp).1 =
            .ok ((gresp.results.getD []).headD { latitude := 0, longitude := 0 })))
    ∧ (aresp.ok = false → getAutocompleteSuggestions input aresp = []) := by
  refine ⟨fun hok => ⟨?_, ?_⟩, fun hparse => ⟨?_, ?_⟩, fun hok => ?_⟩
  · simp [searchByCategory, hok]
  · simp [searchByText, hok]
  · intro hcond
    simp only [geocodeLocation, hparse]
    rw [if_pos]
    · simpa using hcond
  · intro hst hres
    simp only [geocodeLocation, hparse]
    rw [if_neg]
    simp [hst, hres]
  · rw [getAutocompleteSuggestions]
    split
    · rfl
    · simp [hok]

/-- Counterexample for C5: on a non-2xx (`ok = false`) response,
`getAutocompleteSuggestions` succeeds with `[]` instead of failing with
the provider's message, and `geocodeLocation` even succeeds with a
coordinate — neither operation raises a provider error. -/
theorem provider_error_counterexample :
    getAutocompleteSuggestions "ab"
      ⟨false, some [⟨some ⟨"pid", some "Main", none, some "Main, Region"⟩⟩]⟩ = []
    ∧ (geocodeLocation "Central Park"
        { ok := false, status := "OK",
          results := some [{ latitude := 10, longitude := 20 }] }).1 =
      .ok { latitude := 10, longitude := 20 } := by
  constructor
  · rfl
  · simp [geocodeLocation, parseCoordPair, parseSignedNum, takeDigits, dropJsWhitespace]

/-! ### The orchestrator -/

/-- On a 2xx search response, `handleSearch` with explicit coordinates
reduces to the distance-filter / score / truncate / map pipeline. -/
theorem handleSearch_ok (key searchQuery searchMode algorithm : String) (c : Coordinate)
    (radius : ℝ) (gresp : GeocodeResponse) (sresp : PlacesResponse)
    (hok : sresp.ok = true) :
    handleSearch (some key) ⟨searchQuery, searchMode, .coords c, radius, algorithm⟩
        gresp sresp =
      (if (filterByDistance (sresp.places.getD []) c radius).isEmpty then .ok []
       else .ok (((calculateScores (filterByDistance (sresp.places.getD []) c radius)
         algorithm).take TOP_RESULTS_TO_SHOW).map toResultEntry)) := by
  have hsearch : (if searchMode = "category"
      then searchByCategory c radius sresp else searchByText c radius sresp) =
      .ok (filterByDistance (sresp.places.getD []) c radius) := by
    split <;> simp [searchByCategory, searchByText, hok]
  simp only [handleSearch, hsearch]

/-- C6: a provider call returning zero candidates yields the empty ranked
result, not an error; and zero candidates surviving the scoring
pre-filter likewise yields the empty ranked result, not an error. -/
theorem zero_candidates_empty_result (key searchQuery searchMode algorithm : String)
    (c : Coordinate) (radius : ℝ) (gresp : GeocodeResponse) (sresp : PlacesResponse) :
    (sresp.ok = true → sresp.places.getD [] = [] →
      handleSearch (some key) ⟨searchQuery, searchMode, .coords c, radius, algorithm⟩
        gresp sresp = .ok [])
    ∧ (sresp.ok = true →
      validPlaces (filterByDistance (sresp.places.getD []) c radius) = [] →
      handleSearch (some key) ⟨searchQuery, searchMode, .coords c, radius, algorithm⟩
        gresp sresp = .ok []) := by
  constructor
  · intro hok hempty
    rw [handleSearch_ok key searchQuery searchMode algorithm c radius gresp sresp hok]
    simp [hempty, filterByDistance]
  · intro hok hvalid
    rw [handleSearch_ok key searchQuery searchMode algorithm c radius gresp sresp hok]
    by_cases hF : (filterByDistance (sresp.places.getD []) c radius).isEmpty
    · simp [hF]
    · simp only [hF, if_false, Bool.false_eq_true]
      have hscores : calculateScores (filterByDistance (sresp.places.getD []) c radius)
          algorithm = [] := by
        rw [calculateScores]
        split
        · rw [calculatePopularityScores, if_pos (by rw [hvalid]; rfl)]
        · rw [calculateBayesianScores, if_pos (by rw [hvalid]; rfl)]
      simp [hscores]

/-- C7 (amended): every successful `handleSearch` answer has at most the
configured top-N entries, each derived from a scored candidate via
`toResultEntry`; and `toResultEntry` attaches the kilometer distance
rounded to one decimal exactly when `distanceMeters` is present and
nonzero — a known distance of exactly 0 yields `none` (JS falsiness of
`0`), as does an absent distance. -/
theorem ranked_result_topN_distance (key searchQuery searchMode algorithm : String)
    (c : Coordinate) (radius : ℝ) (gresp : GeocodeResponse) (sresp : PlacesResponse)
    (res : List ResultEntry) :
    (handleSearch (some key) ⟨searchQuery, searchMode, .coords c, radius, algorithm⟩
        gresp sresp = .ok res →
      res.length ≤ TOP_RESULTS_TO_SHOW
      ∧ ∀ entry ∈ res, ∃ sc,
          sc ∈ calculateScores (filterByDistance (sresp.places.getD []) c radius) algorithm
          ∧ entry = toResultEntry sc)
    ∧ (∀ sc : ScoredCandidate,
        (∀ d : ℝ, sc.place.distanceMeters = some d → d ≠ 0 →
          (toResultEntry sc).distanceKm = some (toFixed1 (d / 1000)))
        ∧ (sc.place.distanceMeters = none ∨ sc.place.distanceMeters = some 0 →
          (toResultEntry sc).distanceKm = none)) := by
  constructor
  · intro hrun
    cases hok : sresp.ok with
    | false =>
      exfalso
      rw [handleSearch] at hrun
      have hsearch : (if searchMode = "category"
          then searchByCategory c radius sresp else searchByText c radius sresp) =
          .error (jsOrStr sresp.errorMessage "Places API error") := by
        split <;> simp [searchByCategory, searchByText, hok]
      simp [hsearch] at hrun
    | true =>
      rw [handleSearch_ok key searchQuery searchMode algorithm c radius gresp sresp hok]
        at hrun
      by_cases hF : (filterByDistance (sresp.places.getD []) c radius).isEmpty
      · rw [if_pos hF] at hrun
        obtain rfl : ([] : List ResultEntry) = res := by simpa using hrun
        simp
      · rw [if_neg hF] at hrun
        obtain rfl : ((calculateScores (filterByDistance (sresp.places.getD []) c radius)
            algorithm).take TOP_RESULTS_TO_SHOW).map toResultEntry = res := by
          simpa using hrun
        constructor
        · calc (((calculateScores (filterByDistance (sresp.places.getD []) c radius)
              algorithm).take TOP_RESULTS_TO_SHOW).map toResultEntry).length
              = ((calculateScores (filterByDistance (sresp.places.getD []) c radius)
                algorithm).take TOP_RESULTS_TO_SHOW).length := List.length_map _ _
            _ ≤ TOP_RESULTS_TO_SHOW := List.length_take_le _ _
        · intro entry hentry
          obtain ⟨sc, hsc, rfl⟩ := List.mem_map.1 hentry
          exact ⟨sc, (List.take_sublist _ _).subset hsc, rfl⟩
  · intro sc
    constructor
    · intro d hd hne
      simp [toResultEntry, hd, hne]
    · rintro (hd | hd) <;> simp [toResultEntry, hd]

/-- Counterexample for C7: a candidate exactly at the search center
survives the whole pipeline with `distanceMeters = some 0` — its distance
is known — yet the returned entry's `distanceKm` is `null`, because JS
`place.distanceMeters ? … : null` treats the number `0` as falsy. -/
theorem ranked_result_distance_counterexample :
    filterByDistance [samplePlace] sampleOrigin 100 = [setDistance samplePlace 0]
    ∧ (setDistance samplePlace 0).distanceMeters = some 0
    ∧ (∃ res, handleSearch (some "key")
        ⟨"cafe", "category", .coords sampleOrigin, 100, "bayesian"⟩
        ⟨true, "OK", none⟩ ⟨true, none, some [samplePlace]⟩ = .ok res
        ∧ res.map ResultEntry.distanceKm = [none]) := by
  have hz : haversineDistance ((0 : ℚ) : ℝ) ((0 : ℚ) : ℝ) ((0 : ℚ) : ℝ) ((0 : ℚ) : ℝ) = 0 :=
    haversineDistance_self _ _
  have hloc : samplePlace.location = some { latitude := 0, longitude := 0 } := rfl
  have hfilter : filterByDistance [samplePlace] sampleOrigin 100 =
      [setDistance samplePlace 0] := by
    rw [filterByDistance_cons, hloc]
    dsimp only [sampleOrigin]
    rw [hz, if_pos (by norm_num)]
    rfl
  refine ⟨hfilter, rfl, ?_⟩
  have hvalid : isValidPlace (setDistance samplePlace 0) = true := by
    simp [isValidPlace, samplePlace, setDistance, jsOrNat, MIN_REVIEWS]
  refine ⟨((calculateScores [setDistance samplePlace 0] "bayesian").take
    TOP_RESULTS_TO_SHOW).map toResultEntry, ?_, ?_⟩
  · rw [handleSearch_ok "key" "cafe" "category" "bayesian" sampleOrigin 100
      ⟨true, "OK", none⟩ ⟨true, none, some [samplePlace]⟩ rfl]
    simp only [Option.getD, hfilter]
    rw [if_neg (by simp)]
  · have hscores : calculateScores [setDistance samplePlace 0] "bayesian" =
        [⟨setDistance samplePlace 0,
          ((calculateScore ((setDistance samplePlace 0).rating.getD 0)
            (jsOrNat (setDistance samplePlace 0).userRatingCount 0 : ℚ)
            (calculatePriorMean (validPlaces [setDistance samplePlace 0]))
            CONFIDENCE_THRESHOLD : ℚ) : ℝ)⟩] := by
      rw [calculateScores, if_neg (by decide)]
      rw [calculateBayesianScores_eq_mergeSort]
      rw [show bayesianScoredPlaces [setDistance samplePlace 0] =
        [⟨setDistance samplePlace 0,
          ((calculateScore ((setDistance samplePlace 0).rating.getD 0)
            (jsOrNat (setDistance samplePlace 0).userRatingCount 0 : ℚ)
            (calculatePriorMean (validPlaces [setDistance samplePlace 0]))
            CONFIDENCE_THRESHOLD : ℚ) : ℝ)⟩] from by
        simp [bayesianScoredPlaces, validPlaces, List.filter, hvalid]]
      exact List.mergeSort_singleton _
    rw [hscores]
    simp [toResultEntry, TOP_RESULTS_TO_SHOW, setDistance, samplePlace]

end MapsFinder
